import Mathlib

set_option maxRecDepth 8000

/-!
# Commemorative ticket upsell module — verification development

Shallow embedding of the behavioral core of the commemorative-ticket
upsell widget: configuration, pricing, request validation, the
contribution-notes builder, the field-level address validator, and the
interaction state machine (both the Vue component's handlers and the
React reducer), together with proofs of the specified properties.

Modelling conventions:
* JavaScript numbers used for money/quantities are modelled as `Int`.
* JavaScript string records (`Record<string, string>`) are modelled as
  total functions `String → String` where an absent key is the empty
  string: every use in the source only tests truthiness (where
  `undefined` and `""` coincide) or reads a key already known non-empty.
* `undefined`-able fields are modelled as `Option`.
* Fallible operations return explicit outcome values; nothing throws.
-/

namespace CommTicket

/-- `ORG_CONFIG` from `lib/config/orgConfig.ts` (the fields the core reads). -/
structure OrgConfig where
  ticketPrice : Int
  fundId : Int
deriving Repr, DecidableEq

/-- The configured organization values: `ticketPrice: 20`, `fundId: 1001`. -/
def ORG_CONFIG : OrgConfig := { ticketPrice := 20, fundId := 1001 }

/-- A design catalog entry (`DESIGN_OPTIONS` element shape). -/
structure DesignOption where
  id : String
  name : String
  description : String
  available : Bool
deriving Repr, DecidableEq

/-- `DESIGN_OPTIONS` from `lib/config/orgConfig.ts`. -/
def DESIGN_OPTIONS : List DesignOption :=
  [ { id := "design-a", name := "Design A", description := "Season design", available := true },
    { id := "design-b", name := "Design B", description := "Classic", available := true },
    { id := "design-c", name := "Design C", description := "Limited edition", available := true } ]

/-- `Seat` from `types/index.ts`: section/row/seatNumber/price plus optional
Tessitura `seatId`.  (`section` is a Lean keyword, hence `section_`.) -/
structure Seat where
  section_ : String
  row : String
  seatNumber : String
  price : Int
  seatId : Option Int
deriving Repr, DecidableEq

/-- `Address` from `types/index.ts`; `street2` is optional. -/
structure Address where
  name : String
  street1 : String
  street2 : Option String
  city : String
  state : String
  postalCode : String
  country : String
deriving Repr, DecidableEq

/-- One element of `AddToOrderRequest.selections`. -/
structure Selection where
  seatId : Option Int
  section_ : String
  row : String
  seatNumber : String
  designId : String
deriving Repr, DecidableEq

/-- `AddToOrderRequest` from `types/index.ts`.  `shippingAddress` is typed as
required in TS but may be absent at runtime (the validator checks
`!body.shippingAddress`), hence `Option`. -/
structure AddToOrderRequest where
  sessionKey : String
  selections : List Selection
  specialMessage : Option String
  shippingAddress : Option Address
  totalPrice : Int
deriving Repr, DecidableEq

/-! ## Pricing (`lib/api/pricing.ts`) -/

/-- `calculateTotal(quantity)` = `quantity * ORG_CONFIG.ticketPrice`. -/
def calculateTotal (quantity : Int) : Int :=
  quantity * ORG_CONFIG.ticketPrice

/-- The result shape of `verifyPrice`. -/
structure VerifyPriceResult where
  total : Int
  mismatch : Bool
deriving Repr, DecidableEq

/-- `verifyPrice(clientTotal, quantity)` from `lib/api/pricing.ts`: always
returns the server-calculated total; `mismatch` records disagreement. -/
def verifyPrice (clientTotal : Int) (quantity : Int) : VerifyPriceResult :=
  let serverTotal := calculateTotal quantity
  { total := serverTotal, mismatch := clientTotal != serverTotal }

/-! ## Validation (`lib/api/validation.ts`) -/

/-- `validateAddress(address)`: presence (JS truthiness) checks on the five
required fields, in source order. -/
def validateAddress (address : Address) : List String :=
  (if address.name = "" then ["Shipping name is required"] else [])
    ++ (if address.street1 = "" then ["Shipping address line 1 is required"] else [])
    ++ (if address.city = "" then ["Shipping city is required"] else [])
    ++ (if address.state = "" then ["Shipping state is required"] else [])
    ++ (if address.postalCode = "" then ["Shipping postal code is required"] else [])

/-- The per-selection errors accumulated by the `forEach` loop in
`validateAddToOrderRequest`, with 1-based display index `i + 1`. -/
def selectionErrorsFrom (i : Nat) : List Selection → List String
  | [] => []
  | sel :: rest =>
      (if sel.designId = "" then ["Selection " ++ toString (i + 1) ++ ": designId is required"] else [])
        ++ (if sel.row = "" ∨ sel.seatNumber = "" then
              ["Selection " ++ toString (i + 1) ++ ": row and seatNumber are required"] else [])
        ++ selectionErrorsFrom (i + 1) rest

/-- The errors `validateAddToOrderRequest` pushes before the shipping-address
block: sessionKey check, empty-selections check, per-selection checks. -/
def requestLeadingErrors (body : AddToOrderRequest) : List String :=
  (if body.sessionKey = "" then ["sessionKey is required"] else [])
    ++ (if body.selections = [] then ["At least one selection is required"] else [])
    ++ selectionErrorsFrom 0 body.selections

/-- The special-message errors `validateAddToOrderRequest` pushes after the
shipping-address block (`body.specialMessage && body.specialMessage.length > 80`). -/
def specialMessageErrors (body : AddToOrderRequest) : List String :=
  match body.specialMessage with
  | some m => if m ≠ "" ∧ m.length > 80 then ["specialMessage must be 80 characters or less"] else []
  | none => []

/-- `validateAddToOrderRequest(body)` from `lib/api/validation.ts`:
accumulates all errors and returns the full list (empty ⇔ valid). -/
def validateAddToOrderRequest (body : AddToOrderRequest) : List String :=
  (if body.sessionKey = "" then ["sessionKey is required"] else [])
    ++ (if body.selections = [] then ["At least one selection is required"] else [])
    ++ selectionErrorsFrom 0 body.selections
    ++ (match body.shippingAddress with
        | none => ["shippingAddress is required"]
        | some a => validateAddress a)
    ++ (match body.specialMessage with
        | some m => if m ≠ "" ∧ m.length > 80 then ["specialMessage must be 80 characters or less"] else []
        | none => [])

/-! ## Order notes (`lib/api/contributionNotes.ts`) -/

/-- JS `String.prototype.substring(0, n)`: the first `n` characters. -/
def substringTo (s : String) (n : Nat) : String :=
  String.mk (s.data.take n)

/-- Join the truthy (present and non-empty) parts with a separator: models
`array.filter(Boolean).join(sep)` over possibly-`undefined` strings. -/
def joinTruthy (sep : String) (parts : List (Option String)) : String :=
  String.intercalate sep
    (parts.filterMap fun p =>
      match p with
      | some s => if s = "" then none else some s
      | none => none)

/-- `formatDesignName(designId)`: catalog lookup, `"{name} ({description})"`,
or the raw id when not found. -/
def formatDesignName (designId : String) : String :=
  match DESIGN_OPTIONS.find? (fun d => d.id == designId) with
  | some design => design.name ++ " (" ++ design.description ++ ")"
  | none => designId

/-- `formatAddress(address)`: single-line address for the notes field. -/
def formatAddress (address : Address) : String :=
  joinTruthy ", "
    [ some address.name,
      some address.street1,
      address.street2,
      some (address.city ++ ", " ++ address.state ++ " " ++ address.postalCode) ]

/-- `buildContributionNotes(selections, shippingAddress, specialMessage?, maxLength)`
from `lib/api/contributionNotes.ts`; the source defaults `maxLength` to 500. -/
def buildContributionNotes (selections : List Selection) (shippingAddress : Address)
    (specialMessage : Option String) (maxLength : Nat) : String :=
  let designSummary :=
    String.intercalate "; "
      (selections.map fun s =>
        "Row " ++ s.row ++ " Seat " ++ s.seatNumber ++ ": " ++ formatDesignName s.designId)
  let notes :=
    joinTruthy " | "
      [ some "Commemorative Ticket",
        some designSummary,
        (match specialMessage with
         | some m => if m = "" then none else some ("Message: \"" ++ m ++ "\"")
         | none => none),
        some ("Ship to: " ++ formatAddress shippingAddress) ]
  substringTo notes maxLength

/-! ## Field-level validation (`vue/CommemorativeTicketModule.vue`) -/

/-- The validated custom-address fields (`FieldName` in the Vue component). -/
inductive FieldName
  | name | street1 | city | state | postalCode
deriving Repr, DecidableEq

/-- JS `String.prototype.trim()` over the ASCII whitespace range (the inputs
this code sees are ASCII form values). -/
def jsTrim (s : String) : String :=
  String.mk (((s.data.dropWhile Char.isWhitespace).reverse.dropWhile Char.isWhitespace).reverse)

/-- `ZIP_REGEX = /^\d{5}(-\d{4})?$/`: five digits, optionally a hyphen and
four more digits. -/
def zipTest (s : String) : Bool :=
  match s.data with
  | [a, b, c, d, e] => [a, b, c, d, e].all Char.isDigit
  | [a, b, c, d, e, h, f, g, i, j] =>
      [a, b, c, d, e].all Char.isDigit && h == '-' && [f, g, i, j].all Char.isDigit
  | _ => false

/-- One field's validation state: `touched`, tri-state `valid`, message. -/
structure FieldResult where
  touched : Bool
  valid : Option Bool
  error : String
deriving Repr, DecidableEq

/-- The ZIP-format-specific error message from `validateField`. -/
def zipErrorMessage : String :=
  "That doesn\x27t look like a valid ZIP code — US ZIPs are 5 digits (or 5+4 like 10001-1234)"

/-- `validateField(field)` from the Vue component, as a pure function of the
field and the raw stored value (`state.customAddress[field]`): trims the
value, marks the field touched, and computes `valid`/`error`. -/
def validateField (field : FieldName) (raw : String) : FieldResult :=
  let val := jsTrim raw
  if field = .postalCode then
    if val = "" then { touched := true, valid := some false, error := "This field is needed for shipping" }
    else if !zipTest val then { touched := true, valid := some false, error := zipErrorMessage }
    else { touched := true, valid := some true, error := "" }
  else if field = .name ∧ val.length > 0 ∧ val.length < 2 then
    { touched := true, valid := some false, error := "Name should be at least 2 characters" }
  else if field = .state then
    if val = "" then { touched := true, valid := some false, error := "Please select a state" }
    else { touched := true, valid := some true, error := "" }
  else
    if val = "" then { touched := true, valid := some false, error := "This field is needed for shipping" }
    else { touched := true, valid := some true, error := "" }

/-! ## Module state

Both the Vue component's reactive `state` and the React component's
`ModuleStateData` have exactly these fields.  `seatSelections` is a
JS string record modelled as a total function with `""` for absent keys. -/

/-- The phase union type `ModuleState` from `types/index.ts`. -/
inductive ModulePhase
  | collapsed | expanded_step1 | expanded_step2 | success
deriving Repr, DecidableEq

/-- The `shippingOption` union: `'address-on-file' | 'different-address'`. -/
inductive ShippingOption
  | addressOnFile | differentAddress
deriving Repr, DecidableEq

/-- The `customAddress` sub-record (all plain strings in the source). -/
structure CustomAddress where
  name : String
  street1 : String
  street2 : String
  city : String
  state : String
  postalCode : String
deriving Repr, DecidableEq

/-- The all-empty custom address used at initialization and on reset. -/
def emptyCustomAddress : CustomAddress :=
  { name := "", street1 := "", street2 := "", city := "", state := "", postalCode := "" }

/-- The module's mutable state record (Vue `state` / React `ModuleStateData`). -/
structure ModuleStateData where
  currentState : ModulePhase
  seatSelections : String → String
  includeSpecialMessage : Bool
  specialMessage : String
  shippingOption : ShippingOption
  customAddress : CustomAddress
  isLoading : Bool
  error : Option String

/-- The seat-selection record key `` `${seat.row}-${seat.seatNumber}` ``. -/
def seatKey (seat : Seat) : String :=
  seat.row ++ "-" ++ seat.seatNumber

/-- Point update of a string record (JS `{ ...record, [key]: value }`). -/
def updateRecord (f : String → String) (key value : String) : String → String :=
  fun k => if k = key then value else f k

/-- `createInitialState(seats)` (React) and the Vue initial `state` after the
seat watcher seeds each seat's key with `""`: in the total-function model a
record whose every entry is `""` is the constant-`""` function, whatever the
seat list, so the seat list does not affect the model. -/
def createInitialState (_seats : List Seat) : ModuleStateData :=
  { currentState := .collapsed,
    seatSelections := fun _ => "",
    includeSpecialMessage := false,
    specialMessage := "",
    shippingOption := .addressOnFile,
    customAddress := emptyCustomAddress,
    isLoading := false,
    error := none }

/-! ## Derived values (Vue computed / React inline) -/

/-- `selectedSeats`: the seats whose selection entry is truthy (non-empty). -/
def selectedSeats (seats : List Seat) (s : ModuleStateData) : List Seat :=
  seats.filter fun seat => s.seatSelections (seatKey seat) ≠ ""

/-- `totalPrice = selectedSeats.length * pricePerTicket` where
`pricePerTicket = ORG_CONFIG.ticketPrice`. -/
def totalPrice (seats : List Seat) (s : ModuleStateData) : Int :=
  ((selectedSeats seats s).length : Int) * ORG_CONFIG.ticketPrice

/-- `canContinue = selectedSeats.length > 0`. -/
def canContinue (seats : List Seat) (s : ModuleStateData) : Prop :=
  (selectedSeats seats s).length > 0

/-! ## Vue handlers (`vue/CommemorativeTicketModule.vue`) -/

/-- `handleToggle()`: collapsed → step 1; step 1 / step 2 → collapsed;
no-op from success. -/
def handleToggle (s : ModuleStateData) : ModuleStateData :=
  if s.currentState = .collapsed then { s with currentState := .expanded_step1 }
  else if s.currentState = .expanded_step1 ∨ s.currentState = .expanded_step2 then
    { s with currentState := .collapsed }
  else s

/-- `handleExpand()` (the "Add commemorative tickets" button). -/
def handleExpand (s : ModuleStateData) : ModuleStateData :=
  { s with currentState := .expanded_step1 }

/-- `handleContinueToShipping()`. -/
def handleContinueToShipping (s : ModuleStateData) : ModuleStateData :=
  { s with currentState := .expanded_step2 }

/-- `handleBackToStep1()` (the "Back" button in step 2). -/
def handleBackToStep1 (s : ModuleStateData) : ModuleStateData :=
  { s with currentState := .expanded_step1 }

/-- `handleEdit()` (the "Edit" button in the success state). -/
def handleEdit (s : ModuleStateData) : ModuleStateData :=
  { s with currentState := .expanded_step1 }

/-- The Vue `v-model` write on a seat's design `<select>`. -/
def setSeatDesign (key designId : String) (s : ModuleStateData) : ModuleStateData :=
  { s with seatSelections := updateRecord s.seatSelections key designId }

/-- The Vue `v-model` write on the special-message checkbox. -/
def setIncludeSpecialMessage (b : Bool) (s : ModuleStateData) : ModuleStateData :=
  { s with includeSpecialMessage := b }

/-- The Vue `v-model` write on the special-message text input. -/
def setSpecialMessage (m : String) (s : ModuleStateData) : ModuleStateData :=
  { s with specialMessage := m }

/-- The Vue `v-model` write on the shipping-option radio group. -/
def setShippingOption (o : ShippingOption) (s : ModuleStateData) : ModuleStateData :=
  { s with shippingOption := o }

/-- `handleRemove()`: fires the `remove` emit, blanks every current seat's
selection, resets message/shipping/custom-address/error, collapses.
The returned `Bool` records that the removal callback fired. -/
def handleRemove (seats : List Seat) (s : ModuleStateData) : ModuleStateData × Bool :=
  ({ s with
      seatSelections := seats.foldl (fun f seat => updateRecord f (seatKey seat) "") s.seatSelections,
      includeSpecialMessage := false,
      specialMessage := "",
      shippingOption := .addressOnFile,
      customAddress := emptyCustomAddress,
      error := none,
      currentState := .collapsed },
   true)

/-! ## Submission flow (`handleAddToOrder` in the Vue component)

The single network call is the only asynchronous boundary; its observable
result is either a rejection (transport failure, or `response.json()`
throwing on a malformed body) or a parsed body with an HTTP `ok` flag, a
`success` flag, and an optional `error` string. -/

/-- The observable outcome of the `fetch` + `response.json()` pair. -/
inductive SubmitOutcome
  /-- The awaited chain rejected: `some msg` when the thrown value is an
  `Error` carrying `msg`, `none` for a non-`Error` throw. -/
  | transportError (message : Option String)
  /-- A parsed JSON body arrived: HTTP `response.ok`, body `success`,
  body `error` (absent modelled as `none`; the source also treats an empty
  string as absent via `data.error || fallback`). -/
  | response (ok : Bool) (success : Bool) (error : Option String)
deriving Repr, DecidableEq

/-- The synchronous prefix of `handleAddToOrder`:
`state.isLoading = true; state.error = null`. -/
def submitStart (s : ModuleStateData) : ModuleStateData :=
  { s with isLoading := true, error := none }

/-- `data.error || 'Failed to add to order'`: the message of the `Error`
thrown on a non-ok or non-success response. -/
def responseErrorMessage (error : Option String) : String :=
  match error with
  | some e => if e = "" then "Failed to add to order" else e
  | none => "Failed to add to order"

/-- `handleAddToOrder()` given the call's outcome: on success sets phase
`success`, clears the spinner and fires the `add-to-order` emit (the returned
`Bool`, fired exactly on success); on any failure the `catch` block stores a
message in `error`, clears the spinner, and changes nothing else. -/
def handleAddToOrder (outcome : SubmitOutcome) (s : ModuleStateData) :
    ModuleStateData × Bool :=
  let s1 := submitStart s
  match outcome with
  | .transportError msg =>
      ({ s1 with
          error := some (match msg with | some m => m | none => "An error occurred"),
          isLoading := false },
       false)
  | .response ok success error =>
      if ok && success then
        ({ s1 with currentState := .success, isLoading := false }, true)
      else
        ({ s1 with error := some (responseErrorMessage error), isLoading := false }, false)

/-! ## Order request construction (`handleAddToOrder`, lines 322–354) -/

/-- The JSON body posted to the add-to-order endpoint. -/
structure OrderRequest where
  sessionKey : String
  selections : List Selection
  specialMessage : Option String
  shippingAddress : Address
  totalPrice : Int
deriving Repr, DecidableEq

/-- The shipping-address resolution in `handleAddToOrder`: the on-file
address verbatim when the option is address-on-file and one is present,
otherwise an `Address` from the custom fields with `street2 || undefined`
and `country: 'US'`. -/
def resolveShippingAddress (addressOnFile : Option Address) (s : ModuleStateData) : Address :=
  match s.shippingOption, addressOnFile with
  | .addressOnFile, some a => a
  | _, _ =>
      { name := s.customAddress.name,
        street1 := s.customAddress.street1,
        street2 := if s.customAddress.street2 = "" then none else some s.customAddress.street2,
        city := s.customAddress.city,
        state := s.customAddress.state,
        postalCode := s.customAddress.postalCode,
        country := "US" }

/-- The request body built by `handleAddToOrder` from props and state. -/
def buildOrderRequest (seats : List Seat) (addressOnFile : Option Address)
    (sessionKey : String) (s : ModuleStateData) : OrderRequest :=
  { sessionKey := sessionKey,
    selections :=
      (selectedSeats seats s).map fun seat =>
        { seatId := seat.seatId,
          section_ := seat.section_,
          row := seat.row,
          seatNumber := seat.seatNumber,
          designId := s.seatSelections (seatKey seat) },
    specialMessage := if s.includeSpecialMessage then some s.specialMessage else none,
    shippingAddress := resolveShippingAddress addressOnFile s,
    totalPrice := totalPrice seats s }

/-! ## React reducer (`CommemorativeTicketModule.tsx`, `moduleReducer`) -/

/-- The `keyof customAddress` union used by `SET_CUSTOM_ADDRESS`. -/
inductive CustomAddressField
  | name | street1 | street2 | city | state | postalCode
deriving Repr, DecidableEq

/-- Point update of the custom-address record. -/
def setCustomAddressField (field : CustomAddressField) (value : String)
    (a : CustomAddress) : CustomAddress :=
  match field with
  | .name => { a with name := value }
  | .street1 => { a with street1 := value }
  | .street2 => { a with street2 := value }
  | .city => { a with city := value }
  | .state => { a with state := value }
  | .postalCode => { a with postalCode := value }

/-- The `ModuleAction` union from the React component. -/
inductive ModuleAction
  | EXPAND
  | COLLAPSE
  | GO_TO_STEP_1
  | GO_TO_STEP_2
  | SET_SEAT_DESIGN (seatKey : String) (designId : String)
  | TOGGLE_SPECIAL_MESSAGE
  | SET_SPECIAL_MESSAGE (message : String)
  | SET_SHIPPING_OPTION (opt : ShippingOption)
  | SET_CUSTOM_ADDRESS (field : CustomAddressField) (value : String)
  | SET_LOADING (isLoading : Bool)
  | SET_ERROR (error : Option String)
  | SET_SUCCESS
  | RESET

/-- `moduleReducer(state, action)` from the React component.  `RESET` returns
`createInitialState` over seats rebuilt from the current record's keys; in
the total-function model every such rebuilt record is the all-`""` function,
so the rebuilt seat list is irrelevant and passed as `[]`. -/
def moduleReducer (s : ModuleStateData) (a : ModuleAction) : ModuleStateData :=
  match a with
  | .EXPAND => { s with currentState := .expanded_step1 }
  | .COLLAPSE => { s with currentState := .collapsed }
  | .GO_TO_STEP_1 => { s with currentState := .expanded_step1 }
  | .GO_TO_STEP_2 => { s with currentState := .expanded_step2 }
  | .SET_SEAT_DESIGN key designId =>
      { s with seatSelections := updateRecord s.seatSelections key designId }
  | .TOGGLE_SPECIAL_MESSAGE => { s with includeSpecialMessage := !s.includeSpecialMessage }
  | .SET_SPECIAL_MESSAGE message => { s with specialMessage := message }
  | .SET_SHIPPING_OPTION opt => { s with shippingOption := opt }
  | .SET_CUSTOM_ADDRESS field value =>
      { s with customAddress := setCustomAddressField field value s.customAddress }
  | .SET_LOADING isLoading => { s with isLoading := isLoading }
  | .SET_ERROR error => { s with error := error }
  | .SET_SUCCESS => { s with currentState := .success, isLoading := false, error := none }
  | .RESET => createInitialState []

/-- States of the React reducer reachable from some initial state by any
action sequence. -/
inductive ReducerReachable : ModuleStateData → Prop
  | init (seats : List Seat) : ReducerReachable (createInitialState seats)
  | step (s : ModuleStateData) (a : ModuleAction) :
      ReducerReachable s → ReducerReachable (moduleReducer s a)

/-- `SET_SPECIAL_MESSAGE` payloads limited to 80 characters — what the UI
guarantees via the message input's `maxlength="80"` attribute. -/
def messageBoundedAction : ModuleAction → Prop
  | .SET_SPECIAL_MESSAGE m => m.length ≤ 80
  | _ => True

/-- Reducer reachability when every dispatched `SET_SPECIAL_MESSAGE` carries
a message of at most 80 characters. -/
inductive BoundedReachable : ModuleStateData → Prop
  | init (seats : List Seat) : BoundedReachable (createInitialState seats)
  | step (s : ModuleStateData) (a : ModuleAction) :
      BoundedReachable s → messageBoundedAction a → BoundedReachable (moduleReducer s a)

/-! ## Vue-level reachability

One constructor per user affordance, guarded by the phase (and, for the
continue button, the `canContinue` flag) under which the source renders
that affordance enabled. -/

/-- A single user-driven transition of the Vue component. -/
inductive VueStep (seats : List Seat) : ModuleStateData → ModuleStateData → Prop
  | toggle (s : ModuleStateData) : VueStep seats s (handleToggle s)
  | expand (s : ModuleStateData) (h : s.currentState = .collapsed) :
      VueStep seats s (handleExpand s)
  | selectDesign (s : ModuleStateData) (key designId : String)
      (h : s.currentState = .expanded_step1) :
      VueStep seats s (setSeatDesign key designId s)
  | includeMessage (s : ModuleStateData) (b : Bool)
      (h : s.currentState = .expanded_step1) :
      VueStep seats s (setIncludeSpecialMessage b s)
  | message (s : ModuleStateData) (m : String)
      (h : s.currentState = .expanded_step1) :
      VueStep seats s (setSpecialMessage m s)
  | continueToShipping (s : ModuleStateData)
      (h : s.currentState = .expanded_step1) (hc : canContinue seats s) :
      VueStep seats s (handleContinueToShipping s)
  | back (s : ModuleStateData) (h : s.currentState = .expanded_step2) :
      VueStep seats s (handleBackToStep1 s)
  | shippingOption (s : ModuleStateData) (o : ShippingOption)
      (h : s.currentState = .expanded_step2) :
      VueStep seats s (setShippingOption o s)
  | customAddressField (s : ModuleStateData) (field : CustomAddressField) (value : String)
      (h : s.currentState = .expanded_step2) :
      VueStep seats s { s with customAddress := setCustomAddressField field value s.customAddress }
  | submit (s : ModuleStateData) (outcome : SubmitOutcome)
      (h : s.currentState = .expanded_step2) (hl : s.isLoading = false) :
      VueStep seats s (handleAddToOrder outcome s).1
  | edit (s : ModuleStateData) (h : s.currentState = .success) :
      VueStep seats s (handleEdit s)
  | remove (s : ModuleStateData) (h : s.currentState = .success) :
      VueStep seats s (handleRemove seats s).1

/-- Vue component states reachable from the initial state. -/
inductive VueReachable (seats : List Seat) : ModuleStateData → Prop
  | init : VueReachable seats (createInitialState seats)
  | step (s s' : ModuleStateData) :
      VueReachable seats s → VueStep seats s s' → VueReachable seats s'

/-! ## Spec-side definitions and concrete example inputs -/

/-- Modelled from the spec (§4.1): the characterization of a valid request —
all required parts present and the optional message within the 80-character
limit.  Used only to compare `validateAddToOrderRequest` against the spec's
"empty list ⇔ valid" sentence. -/
def specValidRequest (b : AddToOrderRequest) : Prop :=
  b.sessionKey ≠ "" ∧ b.selections ≠ [] ∧
  (∀ sel ∈ b.selections, sel.designId ≠ "" ∧ sel.row ≠ "" ∧ sel.seatNumber ≠ "") ∧
  (∃ a, b.shippingAddress = some a ∧ a.name ≠ "" ∧ a.street1 ≠ "" ∧ a.city ≠ "" ∧
    a.state ≠ "" ∧ a.postalCode ≠ "") ∧
  (∀ m, b.specialMessage = some m → m = "" ∨ m.length ≤ 80)

/-- A representative single selection (seat B-13, design A). -/
def exSelection : Selection :=
  { seatId := none, section_ := "Orchestra", row := "B", seatNumber := "13",
    designId := "design-a" }

/-- A shipping address all of whose required fields are whitespace-only. -/
def wsAddress : Address :=
  { name := " ", street1 := " ", street2 := none, city := " ", state := " ",
    postalCode := " ", country := "US" }

/-- An otherwise-valid request whose address fields are whitespace-only. -/
def wsRequest : AddToOrderRequest :=
  { sessionKey := "sess", selections := [exSelection], specialMessage := none,
    shippingAddress := some wsAddress, totalPrice := 20 }

/-- A complete, well-formed shipping address. -/
def exNotesAddress : Address :=
  { name := "A", street1 := "1 Main", street2 := none, city := "X", state := "NY",
    postalCode := "10001", country := "US" }

/-- A 490-character message; it makes the untruncated notes string for
`exSelection`/`exNotesAddress` exactly 600 characters long. -/
def exNotesMessage : String := String.mk (List.replicate 490 'm')

/-- The same address with `city` missing. -/
def exMissingCityAddress : Address :=
  { name := "A", street1 := "1 Main", street2 := none, city := "", state := "NY",
    postalCode := "10001", country := "US" }

/-- A request missing `shippingAddress.city` and carrying an 81-character
special message. -/
def exMissingCityRequest : AddToOrderRequest :=
  { sessionKey := "sess",
    selections := [exSelection],
    specialMessage := some (String.mk (List.replicate 81 'a')),
    shippingAddress := some exMissingCityAddress,
    totalPrice := 20 }

/-- A fully valid request. -/
def exValidRequest : AddToOrderRequest :=
  { sessionKey := "sess",
    selections := [exSelection],
    specialMessage := some "Happy Birthday!",
    shippingAddress := some exNotesAddress,
    totalPrice := 20 }

/-- The demo cart's seat B-13. -/
def seatB13 : Seat :=
  { section_ := "Orchestra", row := "B", seatNumber := "13", price := 99, seatId := none }

/-- The demo cart's three seats (row B, seats 13–15). -/
def demoSeats : List Seat :=
  [ seatB13,
    { section_ := "Orchestra", row := "B", seatNumber := "14", price := 99, seatId := none },
    { section_ := "Orchestra", row := "B", seatNumber := "15", price := 99, seatId := none } ]

/-- A concrete step-2 state: design A chosen for seat B-13, ship to the
address on file, nothing in flight. -/
def exShipState : ModuleStateData :=
  { currentState := .expanded_step2,
    seatSelections := updateRecord (fun _ => "") "B-13" "design-a",
    includeSpecialMessage := false,
    specialMessage := "",
    shippingOption := .addressOnFile,
    customAddress := emptyCustomAddress,
    isLoading := false,
    error := none }

/-- The state after expanding, picking design A for B-13, continuing to
shipping, and submitting into a `success:false` response carrying "boom":
still in step 2, error = "boom". -/
def exC4Prev : ModuleStateData :=
  (handleAddToOrder (.response true false (some "boom"))
    (handleContinueToShipping
      (setSeatDesign "B-13" "design-a"
        (handleExpand (createInitialState demoSeats))))).1

/-- The state reached from `exC4Prev` via the Back button. -/
def exC4State : ModuleStateData := handleBackToStep1 exC4Prev

/-- An 81-character message. -/
def msg81 : String := String.mk (List.replicate 81 'a')

/-- The state reached by dispatching `SET_SPECIAL_MESSAGE` with `msg81` from
the initial state. -/
def exC9State : ModuleStateData :=
  moduleReducer (createInitialState demoSeats) (.SET_SPECIAL_MESSAGE msg81)

/-! ## Helper lemmas -/

theorem selectionErrorsFrom_eq_nil (i : Nat) (sels : List Selection) :
    selectionErrorsFrom i sels = [] ↔
      ∀ sel ∈ sels, sel.designId ≠ "" ∧ sel.row ≠ "" ∧ sel.seatNumber ≠ "" := by
  induction sels generalizing i with
  | nil => simp [selectionErrorsFrom]
  | cons sel rest ih =>
    simp only [selectionErrorsFrom, List.append_eq_nil, List.mem_cons, ih]
    constructor
    · rintro ⟨⟨h1, h2⟩, h3⟩ s hs
      rcases hs with rfl | hs
      · refine ⟨?_, ?_, ?_⟩
        · intro hd; simp [hd] at h1
        · intro hr; simp [hr] at h2
        · intro hn; simp [hn] at h2
      · exact h3 s hs
    · intro h
      obtain ⟨hd, hr, hn⟩ := h sel (Or.inl rfl)
      refine ⟨⟨?_, ?_⟩, fun s hs => h s (Or.inr hs)⟩
      · simp [hd]
      · simp [hr, hn]

theorem validateAddress_eq_nil (a : Address) :
    validateAddress a = [] ↔
      a.name ≠ "" ∧ a.street1 ≠ "" ∧ a.city ≠ "" ∧ a.state ≠ "" ∧ a.postalCode ≠ "" := by
  unfold validateAddress
  simp only [List.append_eq_nil]
  constructor
  · rintro ⟨⟨⟨⟨h1, h2⟩, h3⟩, h4⟩, h5⟩
    exact ⟨by intro h; simp [h] at h1, by intro h; simp [h] at h2,
      by intro h; simp [h] at h3, by intro h; simp [h] at h4, by intro h; simp [h] at h5⟩
  · rintro ⟨h1, h2, h3, h4, h5⟩
    simp [h1, h2, h3, h4, h5]

theorem clearSeats_preserve (seats : List Seat) (f : String → String) (k : String)
    (h : f k = "") :
    (seats.foldl (fun g t => updateRecord g (seatKey t) "") f) k = "" := by
  induction seats generalizing f with
  | nil => exact h
  | cons hd tl ih =>
    refine ih _ ?_
    simp only [updateRecord]
    split
    · rfl
    · exact h

theorem clearSeats_mem (seats : List Seat) :
    ∀ (f : String → String) (seat : Seat), seat ∈ seats →
      (seats.foldl (fun g t => updateRecord g (seatKey t) "") f) (seatKey seat) = "" := by
  induction seats with
  | nil => intro f seat h; cases h
  | cons hd tl ih =>
    intro f seat h
    rcases List.mem_cons.mp h with rfl | h'
    · exact clearSeats_preserve tl _ _ (by simp [updateRecord])
    · exact ih _ seat h'

/-! ## Claim theorems -/

/-- Claim C1: `verifyPrice(clientTotal, quantity)` returns
`{ total, mismatch }` with `total = calculateTotal quantity =
quantity × ticketPrice` and `mismatch ⇔ clientTotal ≠ total`; in particular,
for any `clientTotal` different from the server-computed total the returned
total is the server value with `mismatch = true` — never the client's. -/
theorem C1_verifyPrice_trust_boundary :
    (∀ clientTotal quantity : Int,
        (verifyPrice clientTotal quantity).total = calculateTotal quantity ∧
        calculateTotal quantity = quantity * ORG_CONFIG.ticketPrice ∧
        ((verifyPrice clientTotal quantity).mismatch = true ↔
          clientTotal ≠ calculateTotal quantity)) ∧
    (∀ clientTotal quantity : Int, clientTotal ≠ calculateTotal quantity →
        (verifyPrice clientTotal quantity).total = calculateTotal quantity ∧
        (verifyPrice clientTotal quantity).mismatch = true) := by
  constructor
  · intro c q
    refine ⟨rfl, rfl, ?_⟩
    simp [verifyPrice, bne_iff_ne]
  · intro c q h
    exact ⟨rfl, by simp [verifyPrice, bne_iff_ne, h]⟩

theorem C1_verifyPrice_trust_boundary_witness :
    (verifyPrice 30 2).total = calculateTotal 2 ∧ (verifyPrice 30 2).mismatch = true :=
  C1_verifyPrice_trust_boundary.2 30 2 (by decide)

/-- Claim C2: the submitted `OrderRequest` consists of exactly the seats with
a non-empty design selection, each paired with its chosen designId (plus
seatId, section, row, seatNumber); `specialMessage` is the stored message
when `includeSpecialMessage` and absent otherwise; `totalPrice` is
`selectedSeats.length × unitPrice`; the shipping address is the on-file
address verbatim when selected and present, otherwise the custom address
with `country = "US"` and an empty `street2` omitted (`none`, not `""`). -/
theorem C2_buildOrderRequest_spec :
    ∀ (seats : List Seat) (addressOnFile : Option Address) (sessionKey : String)
      (s : ModuleStateData),
      (buildOrderRequest seats addressOnFile sessionKey s).sessionKey = sessionKey ∧
      (buildOrderRequest seats addressOnFile sessionKey s).selections =
        (seats.filter fun seat => s.seatSelections (seatKey seat) ≠ "").map (fun seat =>
          { seatId := seat.seatId, section_ := seat.section_, row := seat.row,
            seatNumber := seat.seatNumber, designId := s.seatSelections (seatKey seat) }) ∧
      (buildOrderRequest seats addressOnFile sessionKey s).specialMessage =
        (if s.includeSpecialMessage then some s.specialMessage else none) ∧
      (buildOrderRequest seats addressOnFile sessionKey s).totalPrice =
        ((selectedSeats seats s).length : Int) * ORG_CONFIG.ticketPrice ∧
      (∀ a : Address, s.shippingOption = .addressOnFile → addressOnFile = some a →
        (buildOrderRequest seats addressOnFile sessionKey s).shippingAddress = a) ∧
      ((s.shippingOption = .differentAddress ∨ addressOnFile = none) →
        (buildOrderRequest seats addressOnFile sessionKey s).shippingAddress =
          { name := s.customAddress.name, street1 := s.customAddress.street1,
            street2 := if s.customAddress.street2 = "" then none
              else some s.customAddress.street2,
            city := s.customAddress.city, state := s.customAddress.state,
            postalCode := s.customAddress.postalCode, country := "US" }) := by
  intro seats addressOnFile sessionKey s
  refine ⟨rfl, rfl, rfl, rfl, ?_, ?_⟩
  · intro a h1 h2
    show resolveShippingAddress addressOnFile s = a
    rw [h2]
    unfold resolveShippingAddress
    rw [h1]
  · intro h
    show resolveShippingAddress addressOnFile s = _
    unfold resolveShippingAddress
    rcases h with h | h
    · rw [h]
    · rw [h]
      cases s.shippingOption <;> rfl

theorem C2_buildOrderRequest_spec_witness :
    (buildOrderRequest demoSeats (some exNotesAddress) "sess" exShipState).shippingAddress =
      exNotesAddress :=
  (C2_buildOrderRequest_spec demoSeats (some exNotesAddress) "sess"
    exShipState).2.2.2.2.1 exNotesAddress rfl rfl

/-- Claim C3: from the shipping phase, `submit()` always resolves to exactly
one of two outcomes: on any failure (transport error, malformed body, non-2xx
status, or `success:false`) the error field is set to the server-provided
message or a generic fallback, the spinner is cleared, the phase stays
`expanded_step2` and all user-entered state is preserved; on success the
phase becomes `success`, the completion callback fires (exactly once), and
the spinner is cleared — `isLoading` is never left `true`. -/
theorem C3_submit_resolves_to_two_outcomes :
    ∀ (s : ModuleStateData) (outcome : SubmitOutcome),
      s.currentState = .expanded_step2 →
      (handleAddToOrder outcome s).1.isLoading = false ∧
      (((handleAddToOrder outcome s).1.currentState = .success ∧
        (handleAddToOrder outcome s).2 = true ∧
        (handleAddToOrder outcome s).1.error = none) ∨
       ((handleAddToOrder outcome s).1.currentState = .expanded_step2 ∧
        (handleAddToOrder outcome s).2 = false ∧
        (handleAddToOrder outcome s).1.error ≠ none ∧
        (handleAddToOrder outcome s).1.seatSelections = s.seatSelections ∧
        (handleAddToOrder outcome s).1.includeSpecialMessage = s.includeSpecialMessage ∧
        (handleAddToOrder outcome s).1.specialMessage = s.specialMessage ∧
        (handleAddToOrder outcome s).1.shippingOption = s.shippingOption ∧
        (handleAddToOrder outcome s).1.customAddress = s.customAddress)) ∧
      ((handleAddToOrder outcome s).1.error = none ∨
       (handleAddToOrder outcome s).1.error = some "An error occurred" ∨
       (handleAddToOrder outcome s).1.error = some "Failed to add to order" ∨
       (∃ m, (handleAddToOrder outcome s).1.error = some m ∧
         (outcome = .transportError (some m) ∨
          ∃ ok success, outcome = .response ok success (some m)))) := by
  intro s outcome h
  cases outcome with
  | transportError msg =>
    refine ⟨rfl, Or.inr ⟨h, rfl, by simp [handleAddToOrder, submitStart],
      rfl, rfl, rfl, rfl, rfl⟩, ?_⟩
    cases msg with
    | none => exact Or.inr (Or.inl rfl)
    | some m => exact Or.inr (Or.inr (Or.inr ⟨m, rfl, Or.inl rfl⟩))
  | response ok success e =>
    cases hok : (ok && success) with
    | true =>
      refine ⟨?_, Or.inl ⟨?_, ?_, ?_⟩, Or.inl ?_⟩ <;>
        simp [handleAddToOrder, submitStart, hok]
    | false =>
      refine ⟨?_, Or.inr ⟨?_, ?_, ?_, ?_, ?_, ?_, ?_, ?_⟩, ?_⟩
      · simp [handleAddToOrder, submitStart, hok]
      · simp [handleAddToOrder, submitStart, hok, h]
      · simp [handleAddToOrder, hok]
      · simp [handleAddToOrder, submitStart, hok]
      · simp [handleAddToOrder, submitStart, hok]
      · simp [handleAddToOrder, submitStart, hok]
      · simp [handleAddToOrder, submitStart, hok]
      · simp [handleAddToOrder, submitStart, hok]
      · simp [handleAddToOrder, submitStart, hok]
      · cases e with
        | none => simp [handleAddToOrder, submitStart, hok, responseErrorMessage]
        | some m =>
          by_cases hm : m = ""
          · refine Or.inr (Or.inr (Or.inl ?_))
            simp [handleAddToOrder, submitStart, hok, responseErrorMessage, hm]
          · refine Or.inr (Or.inr (Or.inr ⟨m, ?_, Or.inr ⟨ok, success, rfl⟩⟩))
            simp [handleAddToOrder, submitStart, hok, responseErrorMessage, hm]

theorem C3_submit_resolves_to_two_outcomes_witness :
    (handleAddToOrder (.response true true none) exShipState).1.isLoading = false :=
  (C3_submit_resolves_to_two_outcomes exShipState (.response true true none) rfl).1

/-- Claim C4 (counterexample): the claim says error is non-null only while
the phase is shipping and is cleared by every transition leaving the
shipping phase, including backToDesigns.  In the code `handleBackToStep1`
only changes `currentState`: from the reachable step-2 state `exC4Prev`
(a failed submission with error "boom"), pressing Back reaches `exC4State`,
a reachable state in phase `expanded_step1` whose error is still "boom". -/
theorem C4_error_persists_counterexample :
    VueReachable demoSeats exC4State ∧
    exC4Prev.currentState = .expanded_step2 ∧
    exC4Prev.error = some "boom" ∧
    exC4State = handleBackToStep1 exC4Prev ∧
    exC4State.currentState = .expanded_step1 ∧
    exC4State.error = some "boom" := by
  have h0 : VueReachable demoSeats (createInitialState demoSeats) := .init
  have h1 : VueReachable demoSeats (handleExpand (createInitialState demoSeats)) :=
    .step _ _ h0 (.expand _ rfl)
  have h2 : VueReachable demoSeats
      (setSeatDesign "B-13" "design-a" (handleExpand (createInitialState demoSeats))) :=
    .step _ _ h1 (.selectDesign _ "B-13" "design-a" rfl)
  have h3 : VueReachable demoSeats
      (handleContinueToShipping
        (setSeatDesign "B-13" "design-a" (handleExpand (createInitialState demoSeats)))) :=
    .step _ _ h2 (.continueToShipping _ rfl (by unfold canContinue; decide))
  have h4 : VueReachable demoSeats exC4Prev :=
    .step _ _ h3 (.submit _ (.response true false (some "boom")) rfl rfl)
  have h5 : VueReachable demoSeats exC4State :=
    .step _ _ h4 (.back _ (by decide))
  exact ⟨h5, by decide, by decide, rfl, by decide, by decide⟩

/-- Claim C4 (amended): error is cleared at the start of every submission
attempt (`submitStart`), remains null after a successful submit, and is
cleared by `remove()`; but `backToDesigns`, `toggle` and `edit` leave the
error unchanged, so an error from a failed submission can persist after
leaving the shipping phase. -/
theorem C4_error_clearing_amended :
    (∀ s : ModuleStateData, (submitStart s).error = none) ∧
    (∀ (s : ModuleStateData) (outcome : SubmitOutcome),
        (handleAddToOrder outcome s).2 = true → (handleAddToOrder outcome s).1.error = none) ∧
    (∀ (seats : List Seat) (s : ModuleStateData), (handleRemove seats s).1.error = none) ∧
    (∀ s : ModuleStateData, (handleBackToStep1 s).error = s.error) ∧
    (∀ s : ModuleStateData, (handleToggle s).error = s.error) ∧
    (∀ s : ModuleStateData, (handleEdit s).error = s.error) := by
  refine ⟨fun s => rfl, ?_, fun seats s => rfl, fun s => rfl, ?_, fun s => rfl⟩
  · intro s outcome h
    cases outcome with
    | transportError msg => exact absurd h (by simp [handleAddToOrder, submitStart])
    | response ok success e =>
      cases hok : (ok && success) with
      | true => simp [handleAddToOrder, submitStart, hok]
      | false =>
        rw [show (handleAddToOrder (.response ok success e) s).2 = false by
          simp [handleAddToOrder, submitStart, hok]] at h
        cases h
  · intro s
    unfold handleToggle
    repeat' split
    all_goals rfl

theorem C4_error_clearing_amended_witness :
    (handleAddToOrder (.response true true none) exShipState).1.error = none :=
  C4_error_clearing_amended.2.1 exShipState (.response true true none) rfl

/-- Claim C5: `validateAddToOrderRequest` is total (a Lean function), appends
the `validateAddress` errors to the other errors rather than replacing them,
flags both the missing city and the 81-character message on
`exMissingCityRequest` (at least two errors), returns `[]` on a fully valid
request, and returns `[]` exactly for valid requests. -/
theorem C5_validateOrderRequest_accumulation :
    (∀ (b : AddToOrderRequest) (a : Address), b.shippingAddress = some a →
        validateAddToOrderRequest b =
          requestLeadingErrors b ++ validateAddress a ++ specialMessageErrors b) ∧
    ("Shipping city is required" ∈ validateAddToOrderRequest exMissingCityRequest ∧
      "specialMessage must be 80 characters or less" ∈
        validateAddToOrderRequest exMissingCityRequest ∧
      2 ≤ (validateAddToOrderRequest exMissingCityRequest).length) ∧
    validateAddToOrderRequest exValidRequest = [] ∧
    (∀ b : AddToOrderRequest, validateAddToOrderRequest b = [] ↔ specValidRequest b) := by
  refine ⟨?_, ⟨by decide, by decide, by decide⟩, by decide, ?_⟩
  · intro b a h
    unfold validateAddToOrderRequest requestLeadingErrors specialMessageErrors
    rw [h]
  · intro b
    unfold validateAddToOrderRequest specValidRequest
    simp only [List.append_eq_nil, selectionErrorsFrom_eq_nil]
    constructor
    · rintro ⟨⟨⟨⟨h1, h2⟩, h3⟩, h4⟩, h5⟩
      refine ⟨by intro h; simp [h] at h1, by intro h; simp [h] at h2, h3, ?_, ?_⟩
      · cases hsa : b.shippingAddress with
        | none => rw [hsa] at h4; exact absurd h4 (by simp)
        | some a =>
          rw [hsa] at h4
          exact ⟨a, rfl, (validateAddress_eq_nil a).mp h4⟩
      · intro m hm
        rw [hm] at h5
        by_contra hc
        push_neg at hc
        obtain ⟨hne, hlen⟩ := hc
        simp [hne, hlen] at h5
    · rintro ⟨h1, h2, h3, ⟨a, hsa, ha⟩, h5⟩
      rw [hsa]
      refine ⟨⟨⟨⟨by simp [h1], by simp [h2]⟩, h3⟩, (validateAddress_eq_nil a).mpr ha⟩, ?_⟩
      cases hm : b.specialMessage with
      | none => simp
      | some m =>
        rcases h5 m hm with h | h
        · simp [h]
        · simp [h, Nat.not_lt.mpr h]

theorem C5_validateOrderRequest_accumulation_witness :
    validateAddToOrderRequest exValidRequest =
      requestLeadingErrors exValidRequest ++ validateAddress exNotesAddress ++
        specialMessageErrors exValidRequest :=
  C5_validateOrderRequest_accumulation.1 exValidRequest exNotesAddress rfl

/-- Claim C6: after `remove()` from any state, the documented fields are back
at their initial values — every current seat's selection is `""`,
`includeSpecialMessage = false`, `specialMessage = ""`,
`shippingOption = addressOnFile`, custom address cleared, `error = none` —
the phase is `collapsed` and the removal callback fires; and the React
reducer's `RESET` likewise returns every field (including `isLoading`) to
its initial value. -/
theorem C6_remove_resets_state :
    (∀ (seats : List Seat) (s : ModuleStateData),
        (handleRemove seats s).2 = true ∧
        (handleRemove seats s).1.currentState = .collapsed ∧
        (∀ seat ∈ seats, (handleRemove seats s).1.seatSelections (seatKey seat) = "") ∧
        (handleRemove seats s).1.includeSpecialMessage = false ∧
        (handleRemove seats s).1.specialMessage = "" ∧
        (handleRemove seats s).1.shippingOption = .addressOnFile ∧
        (handleRemove seats s).1.customAddress = emptyCustomAddress ∧
        (handleRemove seats s).1.error = none) ∧
    (∀ s : ModuleStateData,
        (moduleReducer s .RESET).currentState = .collapsed ∧
        (∀ k, (moduleReducer s .RESET).seatSelections k = "") ∧
        (moduleReducer s .RESET).includeSpecialMessage = false ∧
        (moduleReducer s .RESET).specialMessage = "" ∧
        (moduleReducer s .RESET).shippingOption = .addressOnFile ∧
        (moduleReducer s .RESET).customAddress = emptyCustomAddress ∧
        (moduleReducer s .RESET).isLoading = false ∧
        (moduleReducer s .RESET).error = none) := by
  constructor
  · intro seats s
    refine ⟨rfl, rfl, ?_, rfl, rfl, rfl, rfl, rfl⟩
    intro seat hseat
    exact clearSeats_mem seats s.seatSelections seat hseat
  · intro s
    exact ⟨rfl, fun k => rfl, rfl, rfl, rfl, rfl, rfl, rfl⟩

theorem C6_remove_resets_state_witness :
    (handleRemove demoSeats exC4State).1.seatSelections (seatKey seatB13) = "" :=
  (C6_remove_resets_state.1 demoSeats exC4State).2.2.1 seatB13 (by decide)

/-- Claim C7: the postalCode field validator accepts "10001" and
"10001-1234" (`valid = some true`, empty error), rejects any non-empty
trimmed input failing the ZIP / ZIP+4 pattern — e.g. "ABCDE" and "1000" —
with the ZIP-format-specific message, rejects the empty input with the
required-for-shipping message, and marks the field touched in every case. -/
theorem C7_postalCode_field_validation :
    (∀ (f : FieldName) (v : String), (validateField f v).touched = true) ∧
    validateField .postalCode "10001" =
      { touched := true, valid := some true, error := "" } ∧
    validateField .postalCode "10001-1234" =
      { touched := true, valid := some true, error := "" } ∧
    validateField .postalCode "ABCDE" =
      { touched := true, valid := some false, error := zipErrorMessage } ∧
    validateField .postalCode "1000" =
      { touched := true, valid := some false, error := zipErrorMessage } ∧
    validateField .postalCode "" =
      { touched := true, valid := some false, error := "This field is needed for shipping" } ∧
    (∀ v : String, jsTrim v ≠ "" → zipTest (jsTrim v) = false →
        validateField .postalCode v =
          { touched := true, valid := some false, error := zipErrorMessage }) := by
  refine ⟨?_, by decide, by decide, by decide, by decide, by decide, ?_⟩
  · intro f v
    unfold validateField
    dsimp only
    repeat' split
    all_goals rfl
  · intro v h1 h2
    unfold validateField
    simp [h1, h2]

theorem C7_postalCode_field_validation_witness :
    validateField .postalCode "ABCDE" =
      { touched := true, valid := some false, error := zipErrorMessage } :=
  C7_postalCode_field_validation.2.2.2.2.2.2 "ABCDE" (by decide) (by decide)

/-- Claim C8: the order-notes builder hard-truncates its result to
`maxLength` characters for every input, and on inputs whose untruncated
joined string is exactly 600 characters it yields exactly 500 characters at
the default `maxLength` of 500. -/
theorem C8_notes_truncation :
    (∀ (sels : List Selection) (addr : Address) (msg : Option String) (maxLength : Nat),
        (buildContributionNotes sels addr msg maxLength).length ≤ maxLength) ∧
    (buildContributionNotes [exSelection] exNotesAddress (some exNotesMessage) 1000).length
      = 600 ∧
    (buildContributionNotes [exSelection] exNotesAddress (some exNotesMessage) 500).length
      = 500 := by
  refine ⟨?_, by decide, by decide⟩
  intro sels addr msg maxLength
  show (substringTo _ maxLength).length ≤ maxLength
  unfold substringTo
  rw [String.mk_length, List.length_take]
  exact Nat.min_le_left _ _

/-- Claim C9 (counterexample): the claim says no state-machine operation can
make the stored message exceed 80 characters; but the reducer's
`SET_SPECIAL_MESSAGE` stores its payload verbatim, so dispatching an
81-character message from the initial state reaches a state whose stored
message has length 81. -/
theorem C9_message_bound_counterexample :
    ReducerReachable exC9State ∧ exC9State.specialMessage.length = 81 := by
  refine ⟨.step _ _ (.init demoSeats), ?_⟩
  show msg81.length = 81
  unfold msg81
  rw [String.mk_length, List.length_replicate]

/-- Claim C9 (amended): the stored message never exceeds 80 characters in
any state reachable while every `SET_SPECIAL_MESSAGE` payload is at most 80
characters — the bound the UI enforces via the input's `maxlength="80"` —
and the submission boundary independently flags any request whose
`specialMessage` exceeds 80 characters; the reducer itself does not
truncate. -/
theorem C9_message_bound_amended :
    (∀ s : ModuleStateData, BoundedReachable s → s.specialMessage.length ≤ 80) ∧
    (∀ (b : AddToOrderRequest) (m : String), b.specialMessage = some m → m.length > 80 →
        "specialMessage must be 80 characters or less" ∈ validateAddToOrderRequest b) := by
  constructor
  · intro s h
    induction h with
    | init seats => simp [createInitialState]
    | step s a hs hb ih =>
      cases a <;> simp_all [moduleReducer, messageBoundedAction, createInitialState]
  · intro b m hm hlen
    have hne : m ≠ "" := by
      intro h
      rw [h] at hlen
      simp at hlen
    unfold validateAddToOrderRequest
    rw [hm]
    simp [hne, hlen]

theorem C9_message_bound_amended_witness :
    (createInitialState demoSeats).specialMessage.length ≤ 80 :=
  C9_message_bound_amended.1 (createInitialState demoSeats) (.init demoSeats)

/-- Claim C10 (implicit): `validateAddress` checks only truthiness with no
trimming — every address whose five required fields are non-empty strings,
including whitespace-only ones, passes with `[]`, and a whole request
carrying such an address passes `validateAddToOrderRequest` — while the
field-level UI validator trims first and so rejects each whitespace-only
required field. -/
theorem C10_truthiness_only_address_validation :
    (∀ a : Address, a.name ≠ "" → a.street1 ≠ "" → a.city ≠ "" → a.state ≠ "" →
        a.postalCode ≠ "" → validateAddress a = []) ∧
    validateAddress wsAddress = [] ∧
    validateAddToOrderRequest wsRequest = [] ∧
    (validateField .name " ").valid = some false ∧
    (validateField .street1 " ").valid = some false ∧
    (validateField .city " ").valid = some false ∧
    (validateField .state " ").valid = some false ∧
    (validateField .postalCode " ").valid = some false := by
  refine ⟨?_, by decide, by decide, by decide, by decide, by decide, by decide, by decide⟩
  intro a h1 h2 h3 h4 h5
  simp [validateAddress, h1, h2, h3, h4, h5]

theorem C10_truthiness_only_address_validation_witness :
    validateAddress wsAddress = [] :=
  C10_truthiness_only_address_validation.1 wsAddress (by decide) (by decide) (by decide)
    (by decide) (by decide)

end CommTicket
